import Mathlib

/-!
Verification development for `generate_report.py`: a single-pass script that
loads a CSV of pension-enrollment statistics (one row per sub-region), derives
a province column as the first whitespace token of the sub-region name,
reshapes the table (pandas `melt` and `groupby`/`agg`), and interpolates three
serialized chart fragments into a fixed HTML template written to a fixed
output file.

The embedding below translates the script's data flow into pure Lean
functions.  Machine integers of the host are modelled as `Int` (the script
performs no overflow-relevant arithmetic and validates no ranges); the
fallible steps (missing input file, the unguarded `x.split()[0]` lookup) are
modelled with `Option` / an explicit `RunResult`.
-/

namespace GenerateReport

/-- One row of the input CSV, as loaded by `pd.read_csv`:
`시군구명` (sub-region name), `연령(구분)` (age bracket), and the four
enrollment-count columns `사업장가입자`, `지역가입자`, `임의가입자`,
`임의계속가입자`. -/
structure Row where
  sigungu : String
  age : String
  workplace : Int
  regional : Int
  voluntary : Int
  volCont : Int
deriving Repr, DecidableEq, Inhabited

/-- A row after the line `df['시도'] = df['시군구명'].apply(lambda x: x.split()[0])`
has added the derived province column `시도`. -/
structure PRow where
  sigungu : String
  age : String
  sido : String
  workplace : Int
  regional : Int
  voluntary : Int
  volCont : Int
deriving Repr, DecidableEq, Inhabited

/-- Python's `str.split()` with no separator, on fuel: split on runs of
whitespace, discarding leading, trailing and repeated whitespace, so that the
result holds only non-empty tokens.  The fuel only bounds the recursion (each
step strictly shortens the character list, so `cs.length` fuel is enough);
structural recursion on it keeps the function kernel-reducible. -/
def pySplitF : Nat → List Char → List String
  | _, [] => []
  | 0, _ :: _ => []
  | fuel + 1, c :: cs =>
    if c.isWhitespace then
      pySplitF fuel cs
    else
      String.mk (c :: cs.takeWhile (fun d => !d.isWhitespace)) ::
        pySplitF fuel (cs.dropWhile (fun d => !d.isWhitespace))

/-- Python's `str.split()` with no separator. -/
def pySplit (cs : List Char) : List String :=
  pySplitF cs.length cs

/-- `x.split()[0]` for a Python string `x`: the first whitespace-separated
token, or `none` when the token list is empty (in Python an uncaught
`IndexError`). -/
def firstTokenPy (s : String) : Option String :=
  (pySplit s.data).head?

/-- Add the derived `시도` column to one row; fails exactly when
`x.split()[0]` would raise. -/
def deriveRow (r : Row) : Option PRow :=
  (firstTokenPy r.sigungu).map fun t =>
    ⟨r.sigungu, r.age, t, r.workplace, r.regional, r.voluntary, r.volCont⟩

/-- `df['시도'] = df['시군구명'].apply(lambda x: x.split()[0])` over the whole
table; the first failing row aborts the run. -/
def addSido (rows : List Row) : Option (List PRow) :=
  rows.mapM deriveRow

/-- One row of `df_melted`, with the melt's `var_name='가입유형'` column
(`vtype`, holding the originating column name) and `value_name='가입자수'`
column (`value`). The id columns are `연령(구분)` and `시도`. -/
structure MeltedRow where
  age : String
  sido : String
  vtype : String
  value : Int
deriving Repr, DecidableEq, Inhabited

/-- The four `value_vars` of the melt, in the order the script lists them,
each paired with the projection reading that column from a row. -/
def valueVars : List (String × (PRow → Int)) :=
  [("사업장가입자", PRow.workplace),
   ("지역가입자", PRow.regional),
   ("임의가입자", PRow.voluntary),
   ("임의계속가입자", PRow.volCont)]

/-- `df.melt(id_vars=['연령(구분)', '시도'], value_vars=[...],
var_name='가입유형', value_name='가입자수')`.  pandas builds the long frame
column-major (`ravel("F")` over the value columns): first every input row for
the first value column, then every input row for the second, and so on. -/
def melt (rows : List PRow) : List MeltedRow :=
  valueVars.flatMap fun cv => rows.map fun r => ⟨r.age, r.sido, cv.1, cv.2 r⟩

/-- One row of `city_sum`: the group key `시도` and the three summed
columns. -/
structure AggRow where
  sido : String
  workplace : Int
  regional : Int
  voluntary : Int
deriving Repr, DecidableEq, Inhabited

/-- The distinct `시도` values in ascending lexicographic order: pandas
`groupby` sorts its group keys by default. -/
def sortedSidos (rows : List PRow) : List String :=
  List.insertionSort (· ≤ ·) (rows.map PRow.sido).dedup

/-- `df.groupby('시도').agg({'사업장가입자': 'sum', '지역가입자': 'sum',
'임의가입자': 'sum'}).reset_index()`: one output row per distinct province, in
sorted key order, holding the per-group column sums. -/
def city_sum (rows : List PRow) : List AggRow :=
  (sortedSidos rows).map fun k =>
    ⟨k,
     ((rows.filter fun r => r.sido == k).map PRow.workplace).sum,
     ((rows.filter fun r => r.sido == k).map PRow.regional).sum,
     ((rows.filter fun r => r.sido == k).map PRow.voluntary).sum⟩

/-- The fixed input path `FILE_PATH` of the script. -/
def FILE_PATH : String := "국민연금공단_시군구별 청년계층 가입자 현황_20241231.csv"

/-- The fixed output path `OUTPUT_FILE` of the script. -/
def OUTPUT_FILE : String := "national_pension_analysis_report.html"

/-- The two reshaped tables the pipeline derives from the loaded input:
`df_melted` and `city_sum`. -/
def runTables (rows : List Row) : Option (List MeltedRow × List AggRow) :=
  (addSido rows).map fun prows => (melt prows, city_sum prows)

/-- The spec's reading of "the first whitespace-separated token of the
region-name": drop leading whitespace, then take the maximal run of
non-whitespace characters. -/
def specFirstToken (s : String) : String :=
  String.mk ((s.data.dropWhile fun c => c.isWhitespace).takeWhile fun c => !c.isWhitespace)

/-- The sum of the four enrollment-count fields of a row. -/
def PRow.total (r : PRow) : Int :=
  r.workplace + r.regional + r.voluntary + r.volCont

lemma pySplitF_head_eq (fuel : Nat) :
    ∀ cs : List Char, cs.length ≤ fuel → (∃ c ∈ cs, c.isWhitespace = false) →
      (pySplitF fuel cs).head? =
        some (String.mk ((cs.dropWhile fun c => c.isWhitespace).takeWhile fun c => !c.isWhitespace)) := by
  induction fuel with
  | zero =>
    intro cs hlen h
    cases cs with
    | nil => simp at h
    | cons c cs => simp at hlen
  | succ n ih =>
    intro cs hlen h
    cases cs with
    | nil => simp at h
    | cons c cs =>
      by_cases hc : c.isWhitespace
      · rw [pySplitF]
        simp only [hc, if_true, List.dropWhile_cons, Bool.not_true]
        apply ih cs (by simp at hlen; omega)
        rcases h with ⟨d, hd, hdw⟩
        rcases List.mem_cons.mp hd with rfl | hd
        · rw [hc] at hdw; cases hdw
        · exact ⟨d, hd, hdw⟩
      · rw [pySplitF]
        simp [hc, List.takeWhile_cons]

lemma pySplit_head_eq (cs : List Char) (h : ∃ c ∈ cs, c.isWhitespace = false) :
    (pySplit cs).head? =
      some (String.mk ((cs.dropWhile fun c => c.isWhitespace).takeWhile fun c => !c.isWhitespace)) :=
  pySplitF_head_eq cs.length cs le_rfl h

/-- The melted row that column `j` of `valueVars` produces from input row
`r`. -/
def meltCol (j : Nat) (r : PRow) : MeltedRow :=
  match valueVars[j]? with
  | some cv => ⟨r.age, r.sido, cv.1, cv.2 r⟩
  | none => default

/-- The melted row at position `k` of `df_melted`. -/
def meltAt (rows : List PRow) (k : Nat) : MeltedRow :=
  (melt rows).getD k default

/-- The input row at position `i` of `df`. -/
def rowAt (rows : List PRow) (i : Nat) : PRow :=
  rows.getD i default

lemma melt_eq_append (rows : List PRow) :
    melt rows =
      (rows.map fun r => (⟨r.age, r.sido, "사업장가입자", r.workplace⟩ : MeltedRow)) ++
      ((rows.map fun r => (⟨r.age, r.sido, "지역가입자", r.regional⟩ : MeltedRow)) ++
       ((rows.map fun r => (⟨r.age, r.sido, "임의가입자", r.voluntary⟩ : MeltedRow)) ++
        ((rows.map fun r => (⟨r.age, r.sido, "임의계속가입자", r.volCont⟩ : MeltedRow)) ++ []))) := by
  simp [melt, valueVars, List.flatMap]

lemma melt_length (rows : List PRow) : (melt rows).length = 4 * rows.length := by
  rw [melt_eq_append]
  simp
  ring

lemma melt_getD (rows : List PRow) (j i : Nat) (hj : j < 4) (hi : i < rows.length) :
    meltAt rows (j * rows.length + i) = meltCol j (rowAt rows i) := by
  have hrow : rows[i]? = some (rowAt rows i) := by
    rw [rowAt, List.getD_eq_getElem?_getD, List.getElem?_eq_getElem hi]
    rfl
  interval_cases j
  · rw [meltAt, melt_eq_append, List.getD_eq_getElem?_getD]
    rw [show 0 * rows.length + i = i by ring]
    rw [List.getElem?_append_left (by simpa using hi), List.getElem?_map, hrow]
    simp [meltCol, valueVars]
  · rw [meltAt, melt_eq_append, List.getD_eq_getElem?_getD]
    rw [show 1 * rows.length + i = rows.length + i by ring]
    rw [List.getElem?_append_right (by simp)]
    rw [show rows.length + i - (rows.map fun r =>
        (⟨r.age, r.sido, "사업장가입자", r.workplace⟩ : MeltedRow)).length = i by simp]
    rw [List.getElem?_append_left (by simpa using hi), List.getElem?_map, hrow]
    simp [meltCol, valueVars]
  · rw [meltAt, melt_eq_append, List.getD_eq_getElem?_getD]
    rw [List.getElem?_append_right (by simp; omega)]
    rw [show 2 * rows.length + i - (rows.map fun r =>
        (⟨r.age, r.sido, "사업장가입자", r.workplace⟩ : MeltedRow)).length = rows.length + i by
      simp; omega]
    rw [List.getElem?_append_right (by simp)]
    rw [show rows.length + i - (rows.map fun r =>
        (⟨r.age, r.sido, "지역가입자", r.regional⟩ : MeltedRow)).length = i by simp]
    rw [List.getElem?_append_left (by simpa using hi), List.getElem?_map, hrow]
    simp [meltCol, valueVars]
  · rw [meltAt, melt_eq_append, List.getD_eq_getElem?_getD]
    rw [List.getElem?_append_right (by simp; omega)]
    rw [show 3 * rows.length + i - (rows.map fun r =>
        (⟨r.age, r.sido, "사업장가입자", r.workplace⟩ : MeltedRow)).length
        = 2 * rows.length + i by simp; omega]
    rw [List.getElem?_append_right (by simp; omega)]
    rw [show 2 * rows.length + i - (rows.map fun r =>
        (⟨r.age, r.sido, "지역가입자", r.regional⟩ : MeltedRow)).length = rows.length + i by
      simp; omega]
    rw [List.getElem?_append_right (by simp)]
    rw [show rows.length + i - (rows.map fun r =>
        (⟨r.age, r.sido, "임의가입자", r.voluntary⟩ : MeltedRow)).length = i by simp]
    rw [List.getElem?_append_left (by simpa using hi), List.getElem?_map, hrow]
    simp [meltCol, valueVars]

lemma sum_map_add_int (l : List String) (f g : String → Int) :
    (l.map fun k => f k + g k).sum = (l.map f).sum + (l.map g).sum := by
  induction l with
  | nil => simp
  | cons a l ih =>
    simp only [List.map_cons, List.sum_cons, ih]
    ring

lemma sum_map_ite_not_mem (keys : List String) (k0 : String) (c : Int) (h : k0 ∉ keys) :
    (keys.map fun k => if k0 = k then c else 0).sum = 0 := by
  induction keys with
  | nil => simp
  | cons a l ih =>
    simp only [List.mem_cons, not_or] at h
    simp only [List.map_cons, List.sum_cons, if_neg h.1, ih h.2, add_zero]

lemma sum_map_ite_of_nodup (keys : List String) (k0 : String) (c : Int)
    (hnd : keys.Nodup) (hmem : k0 ∈ keys) :
    (keys.map fun k => if k0 = k then c else 0).sum = c := by
  induction keys with
  | nil => simp at hmem
  | cons a l ih =>
    rcases List.mem_cons.mp hmem with rfl | hmem'
    · simp only [List.map_cons, List.sum_cons, if_pos rfl]
      rw [sum_map_ite_not_mem l k0 c (List.nodup_cons.mp hnd).1, add_zero]
      simp
    · have hne : k0 ≠ a := by
        rintro rfl
        exact (List.nodup_cons.mp hnd).1 hmem'
      simp only [List.map_cons, List.sum_cons, if_neg hne, zero_add]
      exact ih (List.nodup_cons.mp hnd).2 hmem'

lemma fiber_sum (w : PRow → Int) (rows : List PRow) (keys : List String)
    (hnd : keys.Nodup) (hcov : ∀ r ∈ rows, r.sido ∈ keys) :
    (keys.map fun k => ((rows.filter fun r => r.sido == k).map w).sum).sum
      = (rows.map w).sum := by
  induction rows with
  | nil => simp
  | cons r rs ih =>
    have step : (keys.map fun k => (((r :: rs).filter fun x => x.sido == k).map w).sum)
        = keys.map fun k =>
            (if r.sido = k then w r else 0) + ((rs.filter fun x => x.sido == k).map w).sum := by
      apply List.map_congr_left
      intro k _
      by_cases h : r.sido = k
      · simp [List.filter_cons, h]
      · simp [List.filter_cons, h]
    rw [step, sum_map_add_int,
      sum_map_ite_of_nodup keys r.sido (w r) hnd (hcov r (List.mem_cons_self r rs)),
      ih fun x hx => hcov x (List.mem_cons_of_mem r hx)]
    simp

lemma city_sum_sido_map (rows : List PRow) :
    (city_sum rows).map AggRow.sido = sortedSidos rows := by
  rw [city_sum, List.map_map]
  exact List.map_id _

/-- The lines of the literal template piece holding the document head, CSS, sidebar and the overview and age-analysis prose, ending at the `div_age` hole (the piece text is these lines joined by newlines). -/
def htmlPreLines : List String :=
  ["",
   "<!DOCTYPE html>",
   "<html lang=\"ko\">",
   "<head>",
   "    <meta charset=\"UTF-8\">",
   "    <meta name=\"viewport\" content=\"width=device-width, initial-scale=1.0\">",
   "    <title>국민연금 청년계층 데이터 분석 보고서</title>",
   "    <style>",
   "        :root \x7b",
   "            --sidebar-width: 300px;",
   "            --main-max-width: 900px;",
   "            --font-main: -apple-system, BlinkMacSystemFont, \"Segoe UI\", Roboto, \"Helvetica Neue\", Arial, sans-serif;",
   "            --color-text: #333;",
   "            --color-bg: #fff;",
   "            --color-link: #007bff;",
   "            --color-border: #e9ecef;",
   "            --color-sidebar-bg: #f8f9fa;",
   "        \x7d",
   "",
   "        body \x7b",
   "            font-family: var(--font-main);",
   "            color: var(--color-text);",
   "            margin: 0;",
   "            display: flex;",
   "            min-height: 100vh;",
   "        \x7d",
   "",
   "        /* Sidebar Styling */",
   "        .sidebar \x7b",
   "            width: var(--sidebar-width);",
   "            background-color: var(--color-sidebar-bg);",
   "            border-right: 1px solid var(--color-border);",
   "            padding: 2rem;",
   "            position: fixed;",
   "            height: 100vh;",
   "            overflow-y: auto;",
   "            flex-shrink: 0;",
   "        \x7d",
   "",
   "        .sidebar-title \x7b",
   "            font-size: 1.2rem;",
   "            font-weight: 700;",
   "            margin-bottom: 1rem;",
   "            color: #2c3e50;",
   "        \x7d",
   "",
   "        .sidebar-nav ul \x7b",
   "            list-style: none;",
   "            padding: 0;",
   "        \x7d",
   "",
   "        .sidebar-nav li \x7b",
   "            margin-bottom: 0.5rem;",
   "        \x7d",
   "",
   "        .sidebar-nav a \x7b",
   "            text-decoration: none;",
   "            color: #555;",
   "            font-size: 0.95rem;",
   "            transition: color 0.2s;",
   "        \x7d",
   "",
   "        .sidebar-nav a:hover \x7b",
   "            color: var(--color-link);",
   "        \x7d",
   "        ",
   "        .sidebar-footer \x7b",
   "            margin-top: 2rem;",
   "            font-size: 0.8rem;",
   "            color: #888;",
   "        \x7d",
   "",
   "        /* Main Content Styling */",
   "        .main-content \x7b",
   "            flex-grow: 1;",
   "            margin-left: var(--sidebar-width);",
   "            padding: 2rem 4rem;",
   "            max-width: 100%;",
   "        \x7d",
   "",
   "        .container \x7b",
   "            max-width: var(--main-max-width);",
   "            margin: 0 auto;",
   "        \x7d",
   "",
   "        h1 \x7b ",
   "            font-size: 2.2rem; ",
   "            margin-bottom: 0.5rem; ",
   "            font-weight: 700;",
   "            border-bottom: 1px solid #eee;",
   "            padding-bottom: 0.5rem;",
   "        \x7d",
   "        ",
   "        h2 \x7b ",
   "            font-size: 1.5rem; ",
   "            margin-top: 3rem; ",
   "            margin-bottom: 1rem; ",
   "            color: #2c3e50;",
   "            border-bottom: 1px solid #eee;",
   "            padding-bottom: 0.3rem; ",
   "        \x7d",
   "",
   "        h3 \x7b",
   "            font-size: 1.2rem;",
   "            margin-top: 2rem;",
   "            color: #495057;",
   "        \x7d",
   "",
   "        p \x7b",
   "            line-height: 1.7;",
   "            margin-bottom: 1.5rem;",
   "            color: #444;",
   "        \x7d",
   "",
   "        .chart-container \x7b",
   "            margin: 2rem 0;",
   "            border: 1px solid #eee;",
   "            border-radius: 8px;",
   "            padding: 10px;",
   "            box-shadow: 0 2px 10px rgba(0,0,0,0.03);",
   "            background: white;",
   "        \x7d",
   "        ",
   "        .callout \x7b",
   "            background-color: #f0f7ff;",
   "            border-left: 5px solid #007bff;",
   "            padding: 1rem;",
   "            margin-bottom: 1.5rem;",
   "            border-radius: 4px;",
   "        \x7d",
   "",
   "        /* Responsive Design */",
   "        @media (max-width: 768px) \x7b",
   "            body \x7b flex-direction: column; \x7d",
   "            .sidebar \x7b ",
   "                width: 100%; ",
   "                height: auto; ",
   "                position: relative; ",
   "                border-right: none;",
   "                border-bottom: 1px solid var(--color-border);",
   "            \x7d",
   "            .main-content \x7b ",
   "                margin-left: 0; ",
   "                padding: 1.5rem; ",
   "            \x7d",
   "        \x7d",
   "    </style>",
   "</head>",
   "<body>",
   "",
   "    <!-- Sidebar -->",
   "    <nav class=\"sidebar\">",
   "        <div class=\"sidebar-title\">청년계층 국민연금 분석</div>",
   "        <div class=\"sidebar-nav\">",
   "            <ul>",
   "                <li><a href=\"#overview\">1. 개요</a></li>",
   "                <li><a href=\"#age-analysis\">2. 연령별 가입 구조</a></li>",
   "                <li><a href=\"#region-analysis\">3. 지역별 일자리 분포</a></li>",
   "                <li><a href=\"#comparison\">4. 고용 안정성 비교</a></li>",
   "            </ul>",
   "        </div>",
   "        <div class=\"sidebar-footer\">",
   "            <p>Data Source: 국민연금공단 (2024.12.31)</p>",
   "            <p>Generated by: Python & Plotly</p>",
   "        </div>",
   "    </nav>",
   "",
   "    <!-- Main Content -->",
   "    <main class=\"main-content\">",
   "        <div class=\"container\">",
   "            ",
   "            <header>",
   "                <h1 class=\"title\">국민연금 시군구별 청년계층 가입자 현황 분석</h1>",
   "                <p class=\"subtitle\" style=\"color: #666; font-size: 1.1rem;\">2024년 12월 말 기준 데이터 분석 보고서</p>",
   "            </header>",
   "",
   "            <section id=\"overview\">",
   "                <h2>1. 개요</h2>",
   "                <div class=\"callout\">",
   "                    <strong>분석 목적:</strong> 본 보고서는 국민연금공단의 시군구별 청년계층 가입자 현황 데이터를 바탕으로, 연령별 가입 유형, 지역별 사업장 가입자 분포, 그리고 고용 형태별(직장인 vs 프리랜서/자영업) 상관관계를 시각화하여 분석합니다.",
   "                </div>",
   "                <p>",
   "                    이 보고서는 <strong>Quarto</strong> 스타일을 지향하는 자동 생성된 HTML 문서입니다.",
   "                    주요 분석 내용은 다음과 같습니다:",
   "                </p>",
   "                <ul>",
   "                    <li>연령대에 따른 가입 유형(사업장, 지역, 임의 등)의 비중 변화</li>",
   "                    <li>전국 시군구별 청년 일자리(사업장 가입자)의 수도권 집중도</li>",
   "                    <li>시도별 직장 가입자와 지역 가입자 간의 규모 비교</li>",
   "                </ul>",
   "            </section>",
   "",
   "            <section id=\"age-analysis\">",
   "                <h2>2. 연령별 가입 구조 (Sunburst Chart)</h2>",
   "                <p>",
   "                    연령대별로 국민연금 가입 유형이 어떻게 다른지 계층적으로 시각화하였습니다. ",
   "                    중앙에서 바깥쪽으로 나갈수록 세부적인 분류를 보여줍니다.",
   "                </p>",
   "                <div class=\"chart-container\">",
   "                    "]

/-- The literal template piece holding the document head, CSS, sidebar and the overview and age-analysis prose, ending at the `div_age` hole. -/
def htmlPre : String :=
  String.intercalate "\n" htmlPreLines

/-- The lines of the literal template piece holding the text between the `div_age` and `div_region` holes (the piece text is these lines joined by newlines). -/
def htmlMid1Lines : List String :=
  ["",
   "                </div>",
   "                <p>",
   "                    * 차트의 섹션을 클릭하면 해당 카테고리를 확대해서 볼 수 있습니다.",
   "                </p>",
   "            </section>",
   "",
   "            <section id=\"region-analysis\">",
   "                <h2>3. 지역별 일자리 분포 (Treemap)</h2>",
   "                <p>",
   "                    사업장 가입자 수(직장인)의 규모를 사각형의 크기로 표현했습니다. ",
   "                    서울 및 수도권 지역의 사각형 크기를 통해 일자리 집중 현상을 직관적으로 확인할 수 있습니다.",
   "                </p>",
   "                <div class=\"chart-container\">",
   "                    "]

/-- The literal template piece holding the text between the `div_age` and `div_region` holes. -/
def htmlMid1 : String :=
  String.intercalate "\n" htmlMid1Lines

/-- The lines of the literal template piece holding the text between the `div_region` and `div_compare` holes (the piece text is these lines joined by newlines). -/
def htmlMid2Lines : List String :=
  ["",
   "                </div>",
   "            </section>",
   "",
   "            <section id=\"comparison\">",
   "                <h2>4. 고용 안정성 및 규모 비교 (Bubble Chart)</h2>",
   "                <p>",
   "                    각 시도의 <strong>지역가입자(X축)</strong>와 <strong>사업장가입자(Y축)</strong> 수를 비교합니다.",
   "                    원의 크기는 사업장 가입자(직장인)의 규모를 나타냅니다.",
   "                </p>",
   "                <div class=\"chart-container\">",
   "                    "]

/-- The literal template piece holding the text between the `div_region` and `div_compare` holes. -/
def htmlMid2 : String :=
  String.intercalate "\n" htmlMid2Lines

/-- The lines of the literal template piece holding the closing prose, footer and closing tags after the `div_compare` hole (the piece text is these lines joined by newlines). -/
def htmlPostLines : List String :=
  ["",
   "                </div>",
   "                <p>",
   "                    대각선 위쪽에 위치할수록 자영업/프리랜서 대비 직장 가입자 비율이 높은 지역으로, 상대적으로 고용 안정성이 높다고 해석할 수 있습니다.",
   "                </p>",
   "            </section>",
   "",
   "            <footer style=\"margin-top: 4rem; border-top: 1px solid #eee; padding-top: 1rem; color: #888; text-align: center;\">",
   "                &copy; 2024 Analysis Report. Generated automatically.",
   "            </footer>",
   "        </div>",
   "    </main>",
   "",
   "</body>",
   "</html>",
   ""]

/-- The literal template piece holding the closing prose, footer and closing tags after the `div_compare` hole. -/
def htmlPost : String :=
  String.intercalate "\n" htmlPostLines

/-- The library reference tag that a chart fragment carries when it is
serialized with `include_plotlyjs='cdn'`.  Modelled: `plotly`'s
`Figure.to_html` is third-party library code; per its documented behavior the
serialized fragment embeds a script reference to the plotly.js CDN exactly
when `include_plotlyjs='cdn'` is passed, and omits it when
`include_plotlyjs=False`. -/
def plotlyCdnScript : String :=
  "<script src=\"https://cdn.plot.ly/plotly.min.js\" charset=\"utf-8\"></script>"

/-- A serialized chart fragment, as produced by `Figure.to_html(full_html=False,
include_plotlyjs=...)`: a flag recording whether the fragment carries the
plotly.js library reference, and the opaque chart markup body. -/
structure Fragment where
  includesPlotlyJs : Bool
  body : String
deriving Repr, DecidableEq, Inhabited

/-- Modelled `Figure.to_html(full_html=False, include_plotlyjs=...)`: tags the
opaque chart markup with the library-reference flag. -/
def toHtml (includePlotlyjs : Bool) (body : String) : Fragment :=
  ⟨includePlotlyjs, body⟩

/-- The markup text of a fragment: the library reference (when present)
followed by the chart body. -/
def Fragment.render (f : Fragment) : String :=
  (if f.includesPlotlyJs then plotlyCdnScript else "") ++ f.body

/-- The pieces of the final document in order: the lines of the four literal
template pieces with the three fragment texts interpolated at the holes,
exactly as the `f`-string template lays them out.  The counting of a pattern
in the document is done piece by piece; the patterns of interest contain no
newline and the fragments are whole pieces, so no counted occurrence is
lost at a piece boundary. -/
def reportPieces (divAge divRegion divCompare : String) : List String :=
  htmlPreLines ++ ([divAge] ++ (htmlMid1Lines ++ ([divRegion] ++
    (htmlMid2Lines ++ ([divCompare] ++ htmlPostLines)))))

/-- The final `html_template` string: the four literal pieces with the three
fragment texts interpolated at the holes. -/
def renderReport (divAge divRegion divCompare : String) : String :=
  htmlPre ++ divAge ++ htmlMid1 ++ divRegion ++ htmlMid2 ++ divCompare ++ htmlPost

/-- Number of (possibly overlapping) occurrences of `pat` in `cs`. -/
def countOcc (pat : List Char) : List Char → Nat
  | [] => 0
  | c :: cs => (if pat.isPrefixOf (c :: cs) then 1 else 0) + countOcc pat cs

/-- Number of occurrences of the pattern `pat` in the string `s`. -/
def countSubstr (s pat : String) : Nat :=
  countOcc pat.data s.data

/-- Total number of occurrences of `pat` across a list of document pieces. -/
def countPieces (pieces : List String) (pat : String) : Nat :=
  (pieces.map fun p => countSubstr p pat).sum

/-- The pattern opening one chart-embedding container in the template. -/
def chartContainerPat : String := "<div class=\"chart-container\">"

/-- The pattern opening one sidebar navigation link. -/
def navLinkPat : String := "<a href=\"#"

/-- The pattern opening one section element with the given anchor id. -/
def sectionPat (name : String) : String := "<section id=\"" ++ name ++ "\">"

/-- The navigation-link pattern for the given anchor name. -/
def navLinkTo (name : String) : String := "<a href=\"#" ++ name ++ "\">"

/-- The four section anchor names, in document order. -/
def sectionNames : List String :=
  ["overview", "age-analysis", "region-analysis", "comparison"]

/-- The pattern opening a section element (to be completed with an anchor
name). -/
def sectionOpenPat : String := "<section id=\""

/-- The pieces of a fragment's markup: the library-reference tag (empty when
absent) followed by the chart body. -/
def fragmentPieces (f : Fragment) : List String :=
  [if f.includesPlotlyJs then plotlyCdnScript else "", f.body]

/-- The pieces of a successful run's document, with each interpolated
fragment contributing its library-reference tag and its body as separate
pieces. -/
def runPieces (fa fr fc : Fragment) : List String :=
  htmlPreLines ++ (fragmentPieces fa ++ (htmlMid1Lines ++ (fragmentPieces fr ++
    (htmlMid2Lines ++ (fragmentPieces fc ++ htmlPostLines)))))

/-- The outcome of one run of the script: it either stops at the missing-file
guard (printing the diagnostic and calling `exit(1)`), dies on an uncaught
exception, or writes the rendered document. -/
inductive RunResult where
  | missingFile (diagnostic : String) : RunResult
  | unhandledError : RunResult
  | success (html : String) : RunResult
deriving Repr, DecidableEq, Inhabited

/-- The script end to end.  `inputFile` is `none` when no file exists at
`FILE_PATH` (the `os.path.exists` guard fails) and `some rows` when the CSV
parses to `rows`; `ageBody`, `regionBody` and `compareBody` are the opaque
chart markups that plotly serializes for the three figures of the run. -/
def run (inputFile : Option (List Row)) (ageBody regionBody compareBody : String) : RunResult :=
  match inputFile with
  | none => .missingFile ("Error: File not found at " ++ FILE_PATH)
  | some rows =>
    match addSido rows with
    | none => .unhandledError
    | some _ =>
      .success (renderReport (toHtml true ageBody).render (toHtml false regionBody).render
        (toHtml false compareBody).render)

/-- The process exit status of a run: `exit(1)` at the guard, the
interpreter's status 1 for an uncaught exception, 0 on success. -/
def exitCode : RunResult → Nat
  | .missingFile _ => 1
  | .unhandledError => 1
  | .success _ => 0

/-- The file write a run performs: `some (path, contents)` when the script
reaches the final `open(OUTPUT_FILE, 'w').write(...)`, `none` when it stops
beforehand. -/
def writtenOutput : RunResult → Option (String × String)
  | .success h => some (OUTPUT_FILE, h)
  | _ => none

/-- The melt ordering that C6 asserts, following the spec's words: grouped by
original input row first, and within each original row the four value columns
in their listed order. -/
def rowMajorMelt (rows : List PRow) : List MeltedRow :=
  rows.flatMap fun r => valueVars.map fun cv => ⟨r.age, r.sido, cv.1, cv.2 r⟩

/-- A fragment text free of the three patterns that the document-shape claims
count; chart markup serialized by plotly contains none of them. -/
def fragmentClean (s : String) : Prop :=
  countSubstr s chartContainerPat = 0 ∧ countSubstr s navLinkPat = 0 ∧
    countSubstr s sectionOpenPat = 0

/-- A two-row sample input with known region names. -/
def demoRows : List Row :=
  [⟨"서울특별시 강남구", "20~24세", 100, 20, 3, 4⟩,
   ⟨"부산광역시 중구", "25~29세", 50, 10, 1, 2⟩]

/-- The sample input after the province column is derived. -/
def demoP : List PRow :=
  [⟨"서울특별시 강남구", "20~24세", "서울특별시", 100, 20, 3, 4⟩,
   ⟨"부산광역시 중구", "25~29세", "부산광역시", 50, 10, 1, 2⟩]

example : addSido demoRows = some demoP := by decide

lemma countOcc_extend_zero (pat ext : List Char) :
    ∀ cs : List Char, countOcc pat cs = 0 → countOcc (pat ++ ext) cs = 0 := by
  intro cs
  induction cs with
  | nil => simp [countOcc]
  | cons c cs ih =>
    intro h
    rw [countOcc] at h ⊢
    have h2 : countOcc pat cs = 0 := by
      rcases Nat.add_eq_zero.mp h with ⟨-, h2⟩
      exact h2
    have h1 : ¬ pat.isPrefixOf (c :: cs) := by
      intro hpre
      rw [if_pos hpre] at h
      omega
    have h1' : ¬ (pat ++ ext).isPrefixOf (c :: cs) := by
      intro hpre
      exact h1 (List.isPrefixOf_iff_prefix.mpr
        ((List.prefix_append pat ext).trans (List.isPrefixOf_iff_prefix.mp hpre)))
    rw [if_neg h1', ih h2, Nat.zero_add]

lemma countSubstr_extend_zero (s pat ext : String) (h : countSubstr s pat = 0) :
    countSubstr s (pat ++ ext) = 0 := by
  rw [countSubstr] at h ⊢
  rw [String.data_append]
  exact countOcc_extend_zero pat.data ext.data s.data h

lemma countPieces_append (l₁ l₂ : List String) (pat : String) :
    countPieces (l₁ ++ l₂) pat = countPieces l₁ pat + countPieces l₂ pat := by
  rw [countPieces, countPieces, countPieces, List.map_append, List.sum_append]

lemma countPieces_singleton (s pat : String) :
    countPieces [s] pat = countSubstr s pat := by
  simp [countPieces]

lemma reportPieces_count (a r c pat : String)
    (ha : countSubstr a pat = 0) (hr : countSubstr r pat = 0) (hc : countSubstr c pat = 0) :
    countPieces (reportPieces a r c) pat =
      countPieces htmlPreLines pat + countPieces htmlMid1Lines pat +
        countPieces htmlMid2Lines pat + countPieces htmlPostLines pat := by
  rw [reportPieces]
  rw [countPieces_append, countPieces_append, countPieces_append, countPieces_append,
    countPieces_append, countPieces_append, countPieces_singleton, countPieces_singleton,
    countPieces_singleton, ha, hr, hc]
  omega

/-- C1: for every input table, `df_melted` has one row per (original row ×
enrollment-type column), i.e. four times the input's row count; and for every
original row, the four melted rows carrying its counts (one per value column)
sum to the sum of that row's four enrollment-count fields. -/
theorem c1_melt_rowcount_and_row_sums (rows : List PRow) :
    (melt rows).length = 4 * rows.length ∧
    ∀ i, i < rows.length →
      (meltAt rows i).value + (meltAt rows (rows.length + i)).value +
        (meltAt rows (2 * rows.length + i)).value +
        (meltAt rows (3 * rows.length + i)).value = (rowAt rows i).total := by
  refine ⟨melt_length rows, fun i hi => ?_⟩
  have h0 := melt_getD rows 0 i (by omega) hi
  have h1 := melt_getD rows 1 i (by omega) hi
  have h2 := melt_getD rows 2 i (by omega) hi
  have h3 := melt_getD rows 3 i (by omega) hi
  rw [Nat.zero_mul, Nat.zero_add] at h0
  rw [Nat.one_mul] at h1
  rw [h0, h1, h2, h3]
  simp [meltCol, valueVars, PRow.total]

/-- Witness for C1 at the two-row sample input, at original row 0. -/
theorem c1_witness :
    (melt demoP).length = 4 * demoP.length ∧
    ((meltAt demoP 0).value + (meltAt demoP (demoP.length + 0)).value +
      (meltAt demoP (2 * demoP.length + 0)).value +
      (meltAt demoP (3 * demoP.length + 0)).value = (rowAt demoP 0).total) :=
  ⟨(c1_melt_rowcount_and_row_sums demoP).1,
   (c1_melt_rowcount_and_row_sums demoP).2 0 (by decide)⟩

/-- C2: for every row whose region-name holds at least one non-whitespace
character, the derived province is exactly the first whitespace-separated
token of the region-name. -/
theorem c2_sido_is_first_token (r : Row)
    (h : ∃ c ∈ r.sigungu.data, c.isWhitespace = false) :
    ∃ p, deriveRow r = some p ∧ p.sido = specFirstToken r.sigungu := by
  refine ⟨⟨r.sigungu, r.age, specFirstToken r.sigungu, r.workplace, r.regional,
    r.voluntary, r.volCont⟩, ?_, rfl⟩
  rw [deriveRow, firstTokenPy, pySplit_head_eq r.sigungu.data h]
  rfl

/-- Witness for C2 at region-name `서울특별시 강남구`, whose derived province
is `서울특별시`. -/
theorem c2_witness :
    (∃ p, deriveRow ⟨"서울특별시 강남구", "20~24세", 100, 20, 3, 4⟩ = some p ∧
        p.sido = specFirstToken "서울특별시 강남구") ∧
    specFirstToken "서울특별시 강남구" = "서울특별시" :=
  ⟨c2_sido_is_first_token ⟨"서울특별시 강남구", "20~24세", 100, 20, 3, 4⟩ (by decide),
   by decide⟩

/-- C3: the workplace counts summed over all rows of `city_sum` equal the
workplace counts summed over all rows of the input table. -/
theorem c3_citysum_preserves_workplace_total (rows : List PRow) :
    ((city_sum rows).map AggRow.workplace).sum = (rows.map PRow.workplace).sum := by
  rw [city_sum, List.map_map]
  have hperm : List.Perm (sortedSidos rows) ((rows.map PRow.sido).dedup) :=
    List.perm_insertionSort _ _
  have h2 : ((sortedSidos rows).map fun k =>
      ((rows.filter fun r => r.sido == k).map PRow.workplace).sum).sum
      = (((rows.map PRow.sido).dedup).map fun k =>
          ((rows.filter fun r => r.sido == k).map PRow.workplace).sum).sum :=
    (hperm.map _).sum_eq
  exact h2.trans (fiber_sum PRow.workplace rows _ (List.nodup_dedup _)
    (fun x hx => List.mem_dedup.mpr (List.mem_map_of_mem _ hx)))

/-- C4: with no file at `FILE_PATH` the run stops at the guard with exit
status 1, the diagnostic holds the configured path, and no output file is
written. -/
theorem c4_missing_input_file (ageBody regionBody compareBody : String) :
    exitCode (run none ageBody regionBody compareBody) = 1 ∧
    writtenOutput (run none ageBody regionBody compareBody) = none ∧
    ∃ pre post, run none ageBody regionBody compareBody
        = RunResult.missingFile (pre ++ FILE_PATH ++ post) :=
  ⟨rfl, rfl, "Error: File not found at ", "", by rw [String.append_empty]; rfl⟩

set_option maxRecDepth 4000 in
/-- C5 fails as stated: at a concrete successful run (empty chart bodies) the
document holds three chart-embedding containers, not four — the overview
section carries no chart. -/
theorem c5_counterexample :
    ¬ countPieces (reportPieces "" "" "") chartContainerPat = 4 := by
  decide

set_option maxRecDepth 4000 in
/-- C5 (amended): every successful run's document holds exactly three
chart-embedding containers and exactly four navigation links, and for each of
the four section anchor names there is exactly one navigation link and
exactly one section with that anchor. -/
theorem c5_three_containers_four_links (a r c : String)
    (ha : fragmentClean a) (hr : fragmentClean r) (hc : fragmentClean c) :
    countPieces (reportPieces a r c) chartContainerPat = 3 ∧
    countPieces (reportPieces a r c) navLinkPat = 4 ∧
    ∀ name ∈ sectionNames,
      countPieces (reportPieces a r c) (navLinkTo name) = 1 ∧
      countPieces (reportPieces a r c) (sectionPat name) = 1 := by
  obtain ⟨ha1, ha2, ha3⟩ := ha
  obtain ⟨hr1, hr2, hr3⟩ := hr
  obtain ⟨hc1, hc2, hc3⟩ := hc
  refine ⟨?_, ?_, ?_⟩
  · rw [reportPieces_count a r c _ ha1 hr1 hc1]
    decide
  · rw [reportPieces_count a r c _ ha2 hr2 hc2]
    decide
  · intro name hname
    have hnavext : ∀ s : String, countSubstr s navLinkPat = 0 →
        countSubstr s (navLinkTo name) = 0 := by
      intro s hs
      have h := countSubstr_extend_zero s navLinkPat (name ++ "\x22>") hs
      rw [navLinkTo, String.append_assoc]
      exact h
    have hsecext : ∀ s : String, countSubstr s sectionOpenPat = 0 →
        countSubstr s (sectionPat name) = 0 := by
      intro s hs
      have h := countSubstr_extend_zero s sectionOpenPat (name ++ "\x22>") hs
      rw [sectionPat, String.append_assoc]
      exact h
    rw [reportPieces_count a r c _ (hnavext a ha2) (hnavext r hr2) (hnavext c hc2),
      reportPieces_count a r c _ (hsecext a ha3) (hsecext r hr3) (hsecext c hc3)]
    fin_cases hname <;> exact ⟨by decide, by decide⟩

/-- C6 fails as stated: on a two-row input the melted table is not in
row-major order (original row first, then the four value columns); pandas
lays the long frame out column-major. -/
theorem c6_counterexample : melt demoP ≠ rowMajorMelt demoP := by
  decide

/-- C6 (amended): the melted output is grouped by value column first, the
columns in the fixed listed order, and within each column block the rows
follow the original input row order: the melted row at position
`j * n + i` is built from value column `j` and original row `i`. -/
theorem c6_column_major_order (rows : List PRow) (j i : Nat)
    (hj : j < 4) (hi : i < rows.length) :
    meltAt rows (j * rows.length + i) = meltCol j (rowAt rows i) :=
  melt_getD rows j i hj hi

/-- Witness for C6 (amended) at the two-row sample input, block 1, row 1. -/
theorem c6_witness : meltAt demoP (1 * demoP.length + 1) = meltCol 1 (rowAt demoP 1) :=
  c6_column_major_order demoP 1 1 (by decide) (by decide)
set_option maxRecDepth 4000 in
/-- C7: of the three serialized fragments only the first (the age chart,
serialized with `include_plotlyjs='cdn'`) carries the library reference; the
other two omit it; the document holds exactly one copy of the reference, and
it sits in the age-chart slot, which the template interpolates before the
region and comparison slots (everything before it — `htmlPre` — is
reference-free). -/
theorem c7_single_library_reference (a r c : String)
    (ha : countSubstr a plotlyCdnScript = 0) (hr : countSubstr r plotlyCdnScript = 0)
    (hc : countSubstr c plotlyCdnScript = 0) :
    ([toHtml true a, toHtml false r, toHtml false c].map Fragment.includesPlotlyJs)
        = [true, false, false] ∧
    countPieces (runPieces (toHtml true a) (toHtml false r) (toHtml false c))
        plotlyCdnScript = 1 ∧
    countPieces (fragmentPieces (toHtml true a)) plotlyCdnScript = 1 ∧
    countPieces (fragmentPieces (toHtml false r)) plotlyCdnScript = 0 ∧
    countPieces (fragmentPieces (toHtml false c)) plotlyCdnScript = 0 ∧
    renderReport (toHtml true a).render (toHtml false r).render (toHtml false c).render
      = htmlPre ++ (plotlyCdnScript ++ a) ++ htmlMid1 ++ r ++ htmlMid2 ++ c ++ htmlPost ∧
    countPieces htmlPreLines plotlyCdnScript = 0 := by
  have hself : countSubstr plotlyCdnScript plotlyCdnScript = 1 := by decide
  have hempty : countSubstr "" plotlyCdnScript = 0 := rfl
  have hfa : countPieces (fragmentPieces (toHtml true a)) plotlyCdnScript = 1 := by
    simp [fragmentPieces, toHtml, countPieces, hself, ha]
  have hfr : countPieces (fragmentPieces (toHtml false r)) plotlyCdnScript = 0 := by
    simp [fragmentPieces, toHtml, countPieces, hempty, hr]
  have hfc : countPieces (fragmentPieces (toHtml false c)) plotlyCdnScript = 0 := by
    simp [fragmentPieces, toHtml, countPieces, hempty, hc]
  have hpre : countPieces htmlPreLines plotlyCdnScript = 0 := by decide
  have hmid1 : countPieces htmlMid1Lines plotlyCdnScript = 0 := by decide
  have hmid2 : countPieces htmlMid2Lines plotlyCdnScript = 0 := by decide
  have hpost : countPieces htmlPostLines plotlyCdnScript = 0 := by decide
  refine ⟨rfl, ?_, hfa, hfr, hfc, rfl, hpre⟩
  rw [runPieces, countPieces_append, countPieces_append, countPieces_append,
    countPieces_append, countPieces_append, countPieces_append,
    hpre, hmid1, hmid2, hpost, hfa, hfr, hfc]

/-- Witness for C7 with empty chart bodies. -/
theorem c7_witness :
    ([toHtml true "", toHtml false "", toHtml false ""].map Fragment.includesPlotlyJs)
        = [true, false, false] ∧
    countPieces (runPieces (toHtml true "") (toHtml false "") (toHtml false ""))
        plotlyCdnScript = 1 ∧
    countPieces (fragmentPieces (toHtml true "")) plotlyCdnScript = 1 ∧
    countPieces (fragmentPieces (toHtml false "")) plotlyCdnScript = 0 ∧
    countPieces (fragmentPieces (toHtml false "")) plotlyCdnScript = 0 ∧
    renderReport (toHtml true "").render (toHtml false "").render (toHtml false "").render
      = htmlPre ++ (plotlyCdnScript ++ "") ++ htmlMid1 ++ "" ++ htmlMid2 ++ "" ++ htmlPost ∧
    countPieces htmlPreLines plotlyCdnScript = 0 :=
  c7_single_library_reference "" "" "" rfl rfl rfl

/-- C8: the table-building steps are deterministic functions of the input —
two runs of the pipeline on the same input produce the same melted table and
the same province-aggregated table. -/
theorem c8_pipeline_deterministic (rows : List Row)
    (t₁ t₂ : Option (List MeltedRow × List AggRow))
    (h₁ : runTables rows = t₁) (h₂ : runTables rows = t₂) : t₁ = t₂ :=
  h₁.symm.trans h₂

/-- Witness for C8 at the two-row sample input. -/
theorem c8_witness : runTables demoRows = runTables demoRows :=
  c8_pipeline_deterministic demoRows (runTables demoRows) (runTables demoRows) rfl rfl

/-- C9: an input with a row whose region-name is empty, or whitespace only,
makes the province derivation fail (Python's `x.split()[0]` raises an
uncaught `IndexError`), terminating the run with a non-zero status. -/
theorem c9_blank_region_name_crashes :
    run (some [⟨"", "20~24세", 1, 2, 3, 4⟩]) "" "" "" = RunResult.unhandledError ∧
    run (some [⟨"   ", "25~29세", 5, 6, 7, 8⟩]) "" "" "" = RunResult.unhandledError ∧
    exitCode (run (some [⟨"", "20~24세", 1, 2, 3, 4⟩]) "" "" "") ≠ 0 ∧
    exitCode (run (some [⟨"   ", "25~29세", 5, 6, 7, 8⟩]) "" "" "") ≠ 0 := by
  decide

/-- C10: the rows of `city_sum` are in ascending lexicographic order of the
province name, each distinct province of the input appears exactly once, and
no other province appears. -/
theorem c10_aggregate_sorted_unique (rows : List PRow) :
    List.Sorted (· ≤ ·) ((city_sum rows).map AggRow.sido) ∧
    ((city_sum rows).map AggRow.sido).Nodup ∧
    ∀ p : String, p ∈ (city_sum rows).map AggRow.sido ↔ p ∈ rows.map PRow.sido := by
  rw [city_sum_sido_map, sortedSidos]
  refine ⟨List.sorted_insertionSort _ _, ?_, ?_⟩
  · exact ((List.perm_insertionSort _ _).nodup_iff).mpr (List.nodup_dedup _)
  · intro p
    rw [(List.perm_insertionSort _ _).mem_iff, List.mem_dedup]
set_option maxRecDepth 4000 in
/-- Witness for C5 (amended) with empty chart bodies, which contain none of
the counted patterns. -/
theorem c5_witness :
    fragmentClean "" ∧
    (countPieces (reportPieces "" "" "") chartContainerPat = 3 ∧
     countPieces (reportPieces "" "" "") navLinkPat = 4 ∧
     ∀ name ∈ sectionNames,
       countPieces (reportPieces "" "" "") (navLinkTo name) = 1 ∧
       countPieces (reportPieces "" "" "") (sectionPat name) = 1) :=
  ⟨⟨rfl, rfl, rfl⟩,
   c5_three_containers_four_links "" "" "" ⟨rfl, rfl, rfl⟩ ⟨rfl, rfl, rfl⟩ ⟨rfl, rfl, rfl⟩⟩
end GenerateReport
